import Mathlib

/-!
Verification development for the entity transform command queue and camera
orientation model of the ggp-directx-11 repository.

Modelling conventions:
* `float` values are modelled as exact real numbers; numeric literals in the
  C++ source are read as the corresponding exact rationals.
* `DirectX::XMFLOAT3` / `DirectX::XMFLOAT4` become `Float3` / `Float4`.
* The DirectXMath intrinsics the source calls (`XMQuaternionMultiply`,
  `XMQuaternionNormalize`, `XMQuaternionRotationRollPitchYaw`,
  `XMVector3Rotate`) are embedded from their scalar (NO-INTRINSICS)
  reference implementations.
* Mutating C++ member functions become pure functions that take the object
  and return the updated object.
* `std::queue` becomes a `List` whose head is the queue front.
-/

noncomputable section

namespace GGP

/-- Model of `DirectX::XMFLOAT3`: three float components, as exact reals. -/
@[ext]
structure Float3 where
  x : ℝ
  y : ℝ
  z : ℝ

/-- Model of `DirectX::XMFLOAT4`: four float components, as exact reals.
Rotation payloads use all four components as a quaternion `(x, y, z, w)`. -/
@[ext]
structure Float4 where
  x : ℝ
  y : ℝ
  z : ℝ
  w : ℝ

/-- Componentwise vector addition on `Float3` (the `+=` pattern used by the
relative-scope handlers). -/
def Float3.add (a b : Float3) : Float3 :=
  ⟨a.x + b.x, a.y + b.y, a.z + b.z⟩

/-- `XMQuaternionMultiply(Q1, Q2)` from DirectXMath (returns the quaternion
product `Q2 * Q1`, per the library's documented argument order). -/
def XMQuaternionMultiply (Q1 Q2 : Float4) : Float4 :=
  ⟨Q2.w * Q1.x + Q2.x * Q1.w + Q2.y * Q1.z - Q2.z * Q1.y,
   Q2.w * Q1.y - Q2.x * Q1.z + Q2.y * Q1.w + Q2.z * Q1.x,
   Q2.w * Q1.z + Q2.x * Q1.y - Q2.y * Q1.x + Q2.z * Q1.w,
   Q2.w * Q1.w - Q2.x * Q1.x - Q2.y * Q1.y - Q2.z * Q1.z⟩

/-- `XMQuaternionLengthSq`: squared 4-dimensional Euclidean length. -/
def XMQuaternionLengthSq (q : Float4) : ℝ :=
  q.x * q.x + q.y * q.y + q.z * q.z + q.w * q.w

/-- `XMQuaternionNormalize` (= `XMVector4Normalize`), from the scalar
reference implementation: compute the length, invert it only when it is
positive (the divide-by-zero guard leaves `fLength = 0`, so a zero-length
input maps to the zero quaternion), and scale the components. -/
def XMQuaternionNormalize (q : Float4) : Float4 :=
  let fLength := Real.sqrt (XMQuaternionLengthSq q)
  let fLength := if fLength > 0 then 1 / fLength else fLength
  ⟨q.x * fLength, q.y * fLength, q.z * fLength, q.w * fLength⟩

/-- `XMQuaternionConjugate`: negate the vector part. -/
def XMQuaternionConjugate (q : Float4) : Float4 :=
  ⟨-q.x, -q.y, -q.z, q.w⟩

/-- `XMQuaternionIdentity`: the identity quaternion `(0, 0, 0, 1)`. -/
def XMQuaternionIdentity : Float4 :=
  ⟨0, 0, 0, 1⟩

/-- `XMQuaternionRotationRollPitchYaw(Pitch, Yaw, Roll)` from the scalar
reference implementation (half-angle sines/cosines combined by the
library's permute/multiply-add sequence). -/
def XMQuaternionRotationRollPitchYaw (pitch yaw roll : ℝ) : Float4 :=
  let sp := Real.sin (pitch * 0.5)
  let cp := Real.cos (pitch * 0.5)
  let sy := Real.sin (yaw * 0.5)
  let cy := Real.cos (yaw * 0.5)
  let sr := Real.sin (roll * 0.5)
  let cr := Real.cos (roll * 0.5)
  ⟨sp * cy * cr - cp * sy * sr,
   cp * sy * cr + sp * cy * sr,
   cp * cy * sr + sp * sy * cr,
   cp * cy * cr + sp * sy * sr⟩

/-- `XMVector3Rotate(V, Q)`: embed the vector as a pure quaternion `A`,
then compute `XMQuaternionMultiply(XMQuaternionMultiply(Conjugate(Q), A), Q)`
and drop the `w` component, exactly as the library does. -/
def XMVector3Rotate (v : Float3) (q : Float4) : Float3 :=
  let a : Float4 := ⟨v.x, v.y, v.z, 0⟩
  let r := XMQuaternionMultiply (XMQuaternionMultiply (XMQuaternionConjugate q) a) q
  ⟨r.x, r.y, r.z⟩

/-!
## TRANSFORM (src/DX11Starter/Transform.h, src/unnamed/part_003)

Ten floats: position `pX pY pZ`, scale `sX sY sZ`, rotation quaternion
`rX rY rZ rW`.
-/

/-- Model of `struct TRANSFORM`: the entity's local transform snapshot. -/
@[ext]
structure TRANSFORM where
  pX : ℝ
  pY : ℝ
  pZ : ℝ
  sX : ℝ
  sY : ℝ
  sZ : ℝ
  rX : ℝ
  rY : ℝ
  rZ : ℝ
  rW : ℝ

/-- The 10-argument `constexpr TRANSFORM` constructor, verbatim from
`Transform.h` lines 52-58: note that the scale fields `sX, sY, sZ` are
initialized from `_posX, _posY, _posZ`, not from `_scaleX, _scaleY,
_scaleZ`. -/
def TRANSFORM.constexprInit
    (_posX _posY _posZ _scaleX _scaleY _scaleZ _rotX _rotY _rotZ _rotW : ℝ) :
    TRANSFORM :=
  { pX := _posX, pY := _posY, pZ := _posZ,
    sX := _posX, sY := _posY, sZ := _posZ,
    rX := _rotX, rY := _rotY, rZ := _rotZ, rW := _rotW }

/-- `TRANSFORM::SetPosition(x, y, z)`. -/
def TRANSFORM.SetPosition (t : TRANSFORM) (p : Float3) : TRANSFORM :=
  { t with pX := p.x, pY := p.y, pZ := p.z }

/-- `TRANSFORM::SetScale(x, y, z)`. -/
def TRANSFORM.SetScale (t : TRANSFORM) (s : Float3) : TRANSFORM :=
  { t with sX := s.x, sY := s.y, sZ := s.z }

/-- `TRANSFORM::SetRotation(x, y, z, w)`. -/
def TRANSFORM.SetRotation (t : TRANSFORM) (r : Float4) : TRANSFORM :=
  { t with rX := r.x, rY := r.y, rZ := r.z, rW := r.w }

/-- `TRANSFORM::GetPosition()`. -/
def TRANSFORM.GetPosition (t : TRANSFORM) : Float3 :=
  ⟨t.pX, t.pY, t.pZ⟩

/-- `TRANSFORM::GetScale()`. -/
def TRANSFORM.GetScale (t : TRANSFORM) : Float3 :=
  ⟨t.sX, t.sY, t.sZ⟩

/-- `TRANSFORM::GetRotation()`. -/
def TRANSFORM.GetRotation (t : TRANSFORM) : Float4 :=
  ⟨t.rX, t.rY, t.rZ, t.rW⟩

/-!
## TransformBuffer (src/unnamed/part_000 header,
src/DX11Starter/TransformBuffer.cpp lines 651-1479)
-/

/-- `TransformBuffer::TRANSFORM_TYPE`. -/
inductive TransformType where
  | T_NONE
  | T_POSITION
  | T_SCALE
  | T_ROTATION
deriving DecidableEq

export TransformType (T_NONE T_POSITION T_SCALE T_ROTATION)

/-- `TransformBuffer::TRANSFORM_SCOPE`. -/
inductive TransformScope where
  | S_IGNORE
  | S_ABSOLUTE
  | S_RELATIVE
deriving DecidableEq

export TransformScope (S_IGNORE S_ABSOLUTE S_RELATIVE)

/-- `TransformBuffer::TransformItem`, the queue element: in the source a
`std::tuple<TransformType, DirectX::XMFLOAT4, TransformScope>`. -/
@[ext]
structure TransformItem where
  ttype : TransformType
  data : Float4
  scope : TransformScope

/-- Model of `class TransformBuffer`: its single data member is
`TransformQueue internalQueue` (a `std::queue<TransformItem>`), modelled as
a list whose head is the queue front. -/
structure TransformBuffer where
  internalQueue : List TransformItem

/-- `TransformBuffer::get_data`. -/
def TransformBuffer.get_data (item : TransformItem) : Float4 :=
  item.data

/-- `TransformBuffer::get_scope`. -/
def TransformBuffer.get_scope (item : TransformItem) : TransformScope :=
  item.scope

/-- `TransformBuffer::get_type`. -/
def TransformBuffer.get_type (item : TransformItem) : TransformType :=
  item.ttype

/-- `TransformBuffer::IsMatchingTransformScope`: scope equality. -/
def TransformBuffer.IsMatchingTransformScope (a b : TransformScope) : Bool :=
  a = b

/-- `TransformBuffer::IsOfTransformScope`. -/
def TransformBuffer.IsOfTransformScope (scope : TransformScope)
    (transformation : TransformItem) : Bool :=
  TransformBuffer.IsMatchingTransformScope scope
    (TransformBuffer.get_scope transformation)

/-- `TransformBuffer::IsIgnored`: front item scope equals `S_IGNORE`. -/
def TransformBuffer.IsIgnored (transformation : TransformItem) : Bool :=
  TransformBuffer.IsOfTransformScope S_IGNORE transformation

/-- `TransformBuffer::IsMatchingTransformType`: type equality. -/
def TransformBuffer.IsMatchingTransformType (a b : TransformType) : Bool :=
  a = b

/-- `TransformBuffer::ConvertTransformation` (4D to 3D): drop `w`. -/
def TransformBuffer.ConvertTransformation3 (source : Float4) : Float3 :=
  ⟨source.x, source.y, source.z⟩

/-- `TransformBuffer::ConvertTransformation` (3D to 4D): the `lastValue`
parameter defaults to `0.0f` in the source and every in-repo call site uses
that default, so the fourth component is `0`. -/
def TransformBuffer.ConvertTransformation4 (source : Float3) : Float4 :=
  ⟨source.x, source.y, source.z, 0⟩

/-- `TransformBuffer::is_empty()`. -/
def TransformBuffer.is_empty (b : TransformBuffer) : Bool :=
  b.internalQueue.isEmpty

/-- `TransformBuffer::size()`. -/
def TransformBuffer.size (b : TransformBuffer) : Nat :=
  b.internalQueue.length

/-- `TransformBuffer::peek_item()`: `queue.front()`. Calling `front` on an
empty `std::queue` is undefined behavior, so the model returns an `Option`;
all in-repo callers check `is_empty` first. -/
def TransformBuffer.peek_item (b : TransformBuffer) : Option TransformItem :=
  b.internalQueue.head?

/-- `TransformBuffer::pop()`: the private helper guards with `is_empty`
before calling `queue.pop()`. -/
def TransformBuffer.pop (b : TransformBuffer) : TransformBuffer :=
  if b.is_empty then b else ⟨b.internalQueue.tail⟩

/-- `TransformBuffer::push(type, data, scope)`: builds the item via
`item_transformation` and appends it at the back of `internalQueue`. -/
def TransformBuffer.push (b : TransformBuffer) (type_ : TransformType)
    (data : Float4) (scope : TransformScope) : TransformBuffer :=
  ⟨b.internalQueue ++ [⟨type_, data, scope⟩]⟩

/-- `TransformBuffer::push_position(XMFLOAT3, scope)`. -/
def TransformBuffer.push_position (b : TransformBuffer) (source : Float3)
    (scope : TransformScope) : TransformBuffer :=
  b.push T_POSITION (TransformBuffer.ConvertTransformation4 source) scope

/-- `TransformBuffer::push_scale(XMFLOAT3, scope)`. -/
def TransformBuffer.push_scale (b : TransformBuffer) (source : Float3)
    (scope : TransformScope) : TransformBuffer :=
  b.push T_SCALE (TransformBuffer.ConvertTransformation4 source) scope

/-- `TransformBuffer::push_rotation(XMFLOAT4, scope)`. -/
def TransformBuffer.push_rotation (b : TransformBuffer) (source : Float4)
    (scope : TransformScope) : TransformBuffer :=
  b.push T_ROTATION source scope

/-- `TransformBuffer::change_item_type` (TransformBuffer.cpp lines 969-973):
`TransformItem item = this->peek_item();` copies the front element into a
local, `std::get<TransformType>(item) = type;` mutates only that local
copy, and nothing is written back, so the queue is returned as it was.
(On an empty queue `peek_item` is undefined behavior; the model leaves the
buffer unchanged there, and the claim about it assumes non-emptiness.) -/
def TransformBuffer.change_item_type (b : TransformBuffer)
    (type_ : TransformType) : TransformBuffer :=
  match b.internalQueue with
  | [] => b
  | front :: rest =>
      let _item : TransformItem := { front with ttype := type_ }
      ⟨front :: rest⟩

/-- `TransformBuffer::change_item_scope` (TransformBuffer.cpp lines
982-986): same copy-and-mutate-the-copy pattern as `change_item_type`. -/
def TransformBuffer.change_item_scope (b : TransformBuffer)
    (scope : TransformScope) : TransformBuffer :=
  match b.internalQueue with
  | [] => b
  | front :: rest =>
      let _item : TransformItem := { front with scope := scope }
      ⟨front :: rest⟩

/-!
## GameEntity (src/DX11Starter/GameEntity.h, src/unnamed/part_006)

The entity owns a local `TRANSFORM` (member `local`, here `localT` since
`local` is reserved in Lean) and a `TransformBuffer`.  The shared mesh
reference (`std::shared_ptr<Mesh> sharedMesh`) is not modelled: it is an
opaque handle that no transform operation reads or writes.
-/

/-- Model of `class GameEntity` (transform-relevant state). -/
structure GameEntity where
  localT : TRANSFORM
  transformBuffer : TransformBuffer

/-- `GameEntity::CreateTransformations()`: default position `(0,0,0)`,
scale `(1,1,1)`, rotation identity quaternion `(0,0,0,1)`. -/
def GameEntity.CreateTransformations (e : GameEntity) : GameEntity :=
  { e with localT :=
      (((e.localT.SetPosition ⟨0, 0, 0⟩).SetScale ⟨1, 1, 1⟩).SetRotation
        ⟨0, 0, 0, 1⟩) }

/-- The `GameEntity(MeshReference&)` constructor: an empty buffer and a
local transform initialized by `CreateTransformations` (the `TRANSFORM()`
default constructor leaves the fields unspecified, but every field is then
overwritten by `CreateTransformations`). -/
def GameEntity.ctorDefaults : GameEntity :=
  { localT := { pX := 0, pY := 0, pZ := 0, sX := 1, sY := 1, sZ := 1,
                rX := 0, rY := 0, rZ := 0, rW := 1 },
    transformBuffer := ⟨[]⟩ }

/-- `GameEntity::Move(x, y, z)`: enqueue a RELATIVE position command. -/
def GameEntity.Move (e : GameEntity) (x y z : ℝ) : GameEntity :=
  { e with transformBuffer := e.transformBuffer.push_position ⟨x, y, z⟩ S_RELATIVE }

/-- `GameEntity::Scale(x, y, z)`: enqueue a RELATIVE scale command. -/
def GameEntity.Scale (e : GameEntity) (x y z : ℝ) : GameEntity :=
  { e with transformBuffer := e.transformBuffer.push_scale ⟨x, y, z⟩ S_RELATIVE }

/-- `GameEntity::Rotate(pitchY, yawX, rollZ)`: build a quaternion with
`XMQuaternionRotationRollPitchYaw` and enqueue it RELATIVE. -/
def GameEntity.Rotate (e : GameEntity) (pitchY yawX rollZ : ℝ) : GameEntity :=
  { e with transformBuffer :=
      (e.transformBuffer.push_rotation
        (XMQuaternionRotationRollPitchYaw pitchY yawX rollZ) S_RELATIVE) }

/-- `GameEntity::MoveTo(x, y, z)`: enqueue an ABSOLUTE position command. -/
def GameEntity.MoveTo (e : GameEntity) (x y z : ℝ) : GameEntity :=
  { e with transformBuffer := e.transformBuffer.push_position ⟨x, y, z⟩ S_ABSOLUTE }

/-- `GameEntity::ScaleTo(x, y, z)`: enqueue an ABSOLUTE scale command. -/
def GameEntity.ScaleTo (e : GameEntity) (x y z : ℝ) : GameEntity :=
  { e with transformBuffer := e.transformBuffer.push_scale ⟨x, y, z⟩ S_ABSOLUTE }

/-- `GameEntity::RotateTo(pitchY, yawX, rollZ)`: multiply the identity
quaternion by the roll-pitch-yaw quaternion and enqueue ABSOLUTE. -/
def GameEntity.RotateTo (e : GameEntity) (pitchY yawX rollZ : ℝ) : GameEntity :=
  { e with transformBuffer :=
      (e.transformBuffer.push_rotation
        (XMQuaternionMultiply XMQuaternionIdentity
          (XMQuaternionRotationRollPitchYaw pitchY yawX rollZ)) S_ABSOLUTE) }

/-- `GameEntity::HandlePosition(transformation, scope)` (part_006 lines
758-777): start from the current position; RELATIVE adds the components,
ABSOLUTE overwrites, any other scope leaves the start value; then
`SetPosition`. -/
def GameEntity.HandlePosition (t : TRANSFORM) (transformation : Float3)
    (scope : TransformScope) : TRANSFORM :=
  let result := t.GetPosition
  let result :=
    if TransformBuffer.IsMatchingTransformScope scope S_RELATIVE then
      ⟨result.x + transformation.x, result.y + transformation.y,
       result.z + transformation.z⟩
    else if TransformBuffer.IsMatchingTransformScope scope S_ABSOLUTE then
      transformation
    else
      result
  t.SetPosition result

/-- `GameEntity::HandleScale(transformation, scope)` (part_006 lines
783-802): same shape as `HandlePosition`, on the scale fields. -/
def GameEntity.HandleScale (t : TRANSFORM) (transformation : Float3)
    (scope : TransformScope) : TRANSFORM :=
  let result := t.GetScale
  let result :=
    if TransformBuffer.IsMatchingTransformScope scope S_RELATIVE then
      ⟨result.x + transformation.x, result.y + transformation.y,
       result.z + transformation.z⟩
    else if TransformBuffer.IsMatchingTransformScope scope S_ABSOLUTE then
      transformation
    else
      result
  t.SetScale result

/-- `GameEntity::HandleRotation(transformation, scope)` (part_006 lines
808-831): RELATIVE multiplies the current quaternion by the delta with
`XMQuaternionMultiply` and renormalizes with `XMQuaternionNormalize`;
ABSOLUTE overwrites; then `SetRotation`. -/
def GameEntity.HandleRotation (t : TRANSFORM) (transformation : Float4)
    (scope : TransformScope) : TRANSFORM :=
  let result := t.GetRotation
  let result :=
    if TransformBuffer.IsMatchingTransformScope scope S_RELATIVE then
      XMQuaternionNormalize (XMQuaternionMultiply result transformation)
    else if TransformBuffer.IsMatchingTransformScope scope S_ABSOLUTE then
      transformation
    else
      result
  t.SetRotation result

/-- One iteration of the `while (!transformBuffer.is_empty())` loop body of
`GameEntity::HandleTransformations` (part_006 lines 717-752), acting on the
front item: if the item is not `IsIgnored`, switch on its type and delegate
to the matching handler (`T_POSITION`/`T_SCALE` receive the payload as a
3-vector via `peek_float3`, `T_ROTATION` as the full 4-vector; `T_NONE` and
the `default` branch do nothing); the item is then popped regardless. -/
def GameEntity.HandleTransformationsStep (t : TRANSFORM)
    (item : TransformItem) : TRANSFORM :=
  if !(TransformBuffer.IsIgnored item) then
    match TransformBuffer.get_type item with
    | T_POSITION =>
        GameEntity.HandlePosition t
          (TransformBuffer.ConvertTransformation3 (TransformBuffer.get_data item))
          (TransformBuffer.get_scope item)
    | T_SCALE =>
        GameEntity.HandleScale t
          (TransformBuffer.ConvertTransformation3 (TransformBuffer.get_data item))
          (TransformBuffer.get_scope item)
    | T_ROTATION =>
        GameEntity.HandleRotation t (TransformBuffer.get_data item)
          (TransformBuffer.get_scope item)
    | T_NONE => t
  else
    t

/-- The `while` loop of `GameEntity::HandleTransformations`: each pass
applies the step to the front item and pops it, so the loop is structural
recursion over the queue contents; it returns the final transform together
with the (empty) remaining queue. -/
def GameEntity.HandleTransformationsAux :
    TRANSFORM → List TransformItem → TRANSFORM × List TransformItem
  | t, [] => (t, [])
  | t, item :: rest =>
      GameEntity.HandleTransformationsAux
        (GameEntity.HandleTransformationsStep t item) rest

/-- `GameEntity::HandleTransformations()`: drain the buffer into the local
transform. -/
def GameEntity.HandleTransformations (e : GameEntity) : GameEntity :=
  let r := GameEntity.HandleTransformationsAux e.localT
    e.transformBuffer.internalQueue
  { e with localT := r.1, transformBuffer := ⟨r.2⟩ }

/-- `GameEntity::Update(deltaTime, totalTime)` (part_006 lines 387-414):
the procedural-animation block computes several unused locals (`magnitude`,
`noise`, `x`, `y`, `z`, `rX`, `rY`, `rZ` feed only commented-out calls);
its sole live effect is `ScaleTo(pulse, pulse, 1.0f)` with
`pulse = 0.15f + 0.05f * -sinf(totalTime)`, followed by one call to
`HandleTransformations`. -/
def GameEntity.Update (e : GameEntity) (_deltaTime totalTime : ℝ) : GameEntity :=
  let pulse := 0.15 + 0.05 * (-(Real.sin totalTime))
  (e.ScaleTo pulse pulse 1).HandleTransformations

/-!
## UnitVector (src/DX11Starter/Camera.cpp lines 12-249)

`std::array<float, 3> data`, re-normalized on every construction and `Set`.
-/

/-- Model of `struct UnitVector`: the three stored floats. -/
@[ext]
structure UnitVector where
  data : Float3

/-- `UnitVector::normalize()` (Camera.cpp lines 227-247): magnitude via
`sqrt(pow(x,2) + pow(y,2) + pow(z,2))`, then divide each component by it.
The division is unguarded in the source (a zero vector divides by zero and
yields NaN components in C++; over exact reals division by zero yields 0). -/
def UnitVector.normalize (u : UnitVector) : UnitVector :=
  let x := u.data.x
  let y := u.data.y
  let z := u.data.z
  let mag := Real.sqrt (x ^ 2 + y ^ 2 + z ^ 2)
  ⟨⟨x / mag, y / mag, z / mag⟩⟩

/-- `UnitVector::Set(x, y, z)`: overwrite `data` then `normalize()`. -/
def UnitVector.Set (_u : UnitVector) (x y z : ℝ) : UnitVector :=
  UnitVector.normalize ⟨⟨x, y, z⟩⟩

/-- The `UnitVector(float, float, float)` constructor: store the three
components then `normalize()`.  The `XMFLOAT3` and array overloads and the
default constructor (which passes `(0, 0, 0)`) all delegate to it. -/
def UnitVector.ctorXYZ (x y z : ℝ) : UnitVector :=
  UnitVector.normalize ⟨⟨x, y, z⟩⟩

/-- `UnitVector::GetDefaultUp()`: `UnitVector(0, 1, 0)`. -/
def UnitVector.GetDefaultUp : UnitVector :=
  UnitVector.ctorXYZ 0 1 0

/-- `UnitVector::GetDefaultForward()`: `UnitVector(0, 0, 1)`. -/
def UnitVector.GetDefaultForward : UnitVector :=
  UnitVector.ctorXYZ 0 0 1

/-- `UnitVector::Get()`: the stored components. -/
def UnitVector.Get (u : UnitVector) : Float3 :=
  u.data

/-!
## TransformDescription (src/DX11Starter/Camera.cpp lines 251-744)
-/

/-- Model of `struct TransformDescription`: cached `heading`/`up` unit
vectors plus start and current position and orientation. -/
@[ext]
structure TransformDescription where
  heading : UnitVector
  up : UnitVector
  position_start : Float3
  position : Float3
  orientation_start : Float3
  orientation : Float3

/-- `TransformDescription::CalculateHeading()` (Camera.cpp lines 695-717):
rotate the default forward vector `(0,0,1)` by the quaternion built from
`(orientation.y, orientation.x, orientation.z)` as (pitch, yaw, roll), and
store the result in `heading` via `UnitVector::Set`. -/
def TransformDescription.CalculateHeading (td : TransformDescription) :
    TransformDescription :=
  let forward_safe := UnitVector.GetDefaultForward.Get
  let rotation := XMQuaternionRotationRollPitchYaw td.orientation.y
    td.orientation.x td.orientation.z
  let direction_safe := XMVector3Rotate forward_safe rotation
  { td with heading :=
      (td.heading.Set direction_safe.x direction_safe.y direction_safe.z) }

/-- `TransformDescription::CalculateUp()` (Camera.cpp lines 722-744): same
as `CalculateHeading` with the default up vector `(0,1,0)` and the `up`
field. -/
def TransformDescription.CalculateUp (td : TransformDescription) :
    TransformDescription :=
  let global_up_safe := UnitVector.GetDefaultUp.Get
  let rotation := XMQuaternionRotationRollPitchYaw td.orientation.y
    td.orientation.x td.orientation.z
  let relative_up_safe := XMVector3Rotate global_up_safe rotation
  { td with up :=
      (td.up.Set relative_up_safe.x relative_up_safe.y relative_up_safe.z) }

/-- The `TransformDescription(XMFLOAT3 _position, XMFLOAT3 _rotation)`
constructor (Camera.cpp lines 317-327): initialize `heading`/`up` to the
defaults, both position fields to `_position`, both orientation fields to
`_rotation`, then `CalculateHeading(); CalculateUp();`. -/
def TransformDescription.ctorPosRot (_position _rotation : Float3) :
    TransformDescription :=
  (TransformDescription.CalculateUp
    (TransformDescription.CalculateHeading
      { heading := UnitVector.GetDefaultForward,
        up := UnitVector.GetDefaultUp,
        position_start := _position, position := _position,
        orientation_start := _rotation, orientation := _rotation }))

/-- `TransformDescription::GetCurrentPosition()`. -/
def TransformDescription.GetCurrentPosition (td : TransformDescription) :
    Float3 :=
  td.position

/-- `TransformDescription::GetBaseOrientation()`: returns the
`orientation` field. -/
def TransformDescription.GetBaseOrientation (td : TransformDescription) :
    Float3 :=
  td.orientation

/-- `TransformDescription::GetCurrentOrientation()` (the no-argument
overload, Camera.cpp lines 459-462): the body is `return this->position;`
— it returns the position field, not the orientation field. -/
def TransformDescription.GetCurrentOrientation (td : TransformDescription) :
    Float3 :=
  td.position

/-- `TransformDescription::Translate(XMFLOAT3 delta)`: `position += delta`
componentwise; heading and up are untouched. -/
def TransformDescription.Translate (td : TransformDescription)
    (delta : Float3) : TransformDescription :=
  { td with position := (td.position.add delta) }

/-- `TransformDescription::Rotate(XMFLOAT3 delta)`: `orientation += delta`
componentwise, then `CalculateHeading(); CalculateUp();`. -/
def TransformDescription.Rotate (td : TransformDescription)
    (delta : Float3) : TransformDescription :=
  (TransformDescription.CalculateUp
    (TransformDescription.CalculateHeading
      { td with orientation := (td.orientation.add delta) }))

/-- `TransformDescription::SetPosition(XMFLOAT3 absolute)`: overwrite
`position`. -/
def TransformDescription.SetPosition (td : TransformDescription)
    (absolute : Float3) : TransformDescription :=
  { td with position := absolute }

/-- `TransformDescription::SetRotation(XMFLOAT3 absolute)`: overwrite
`orientation`, then `CalculateHeading(); CalculateUp();`. -/
def TransformDescription.SetRotation (td : TransformDescription)
    (absolute : Float3) : TransformDescription :=
  (TransformDescription.CalculateUp
    (TransformDescription.CalculateHeading
      { td with orientation := absolute }))

/-- `TransformDescription::UpdatePosition(XMFLOAT3 speed, bool isRelative)`
(Camera.cpp lines 584-599): guarded by
`if (speed.x + speed.y + speed.z != 0.0f)`; inside, `!isRelative` calls
`SetPosition(delta)` and otherwise `Translate(delta)`; a speed whose
components sum to zero leaves the state untouched. -/
def TransformDescription.UpdatePosition (td : TransformDescription)
    (speed : Float3) (isRelative : Bool) : TransformDescription :=
  if speed.x + speed.y + speed.z ≠ 0 then
    if !isRelative then td.SetPosition speed else td.Translate speed
  else
    td

/-- `TransformDescription::UpdateRotation(XMFLOAT3 speed, bool isRelative)`
(Camera.cpp lines 606-624): same guard; `!isRelative` calls
`SetRotation(delta)`, otherwise `Rotate(delta)`; both are followed by
another `CalculateHeading(); CalculateUp();`. -/
def TransformDescription.UpdateRotation (td : TransformDescription)
    (speed : Float3) (isRelative : Bool) : TransformDescription :=
  if speed.x + speed.y + speed.z ≠ 0 then
    (TransformDescription.CalculateUp
      (TransformDescription.CalculateHeading
        (if !isRelative then td.SetRotation speed else td.Rotate speed)))
  else
    td

/-!
## CameraOptions (src/DX11Starter/Camera.cpp lines 747-1002,
header in src/unnamed/part_005)

The source names the cached-ratio field `aspectRatio` and its methods
`GetAspectRatio` / `UpdateAspectRatio`; they are shortened to `aspect` /
`GetAspect` / `UpdateAspect` here, with behavior unchanged.
-/

/-- The global `PI` constant from the camera header:
`const float PI = 3.1415926535f;`. -/
def cameraPI : ℝ := 3.1415926535

/-- Model of `struct CameraOptions`. -/
@[ext]
structure CameraOptions where
  fieldOfView : ℝ
  width : ℝ
  height : ℝ
  aspect : ℝ
  nearPlane : ℝ
  farPlane : ℝ

/-- `CameraOptions::SetFieldOfView(value)`: stores `value * PI`. -/
def CameraOptions.SetFieldOfView (o : CameraOptions) (value : ℝ) :
    CameraOptions :=
  { o with fieldOfView := value * cameraPI }

/-- `CameraOptions::SetWidth(value)` (Camera.cpp lines 937-940): assigns
only the `width` field; the cached ratio is not recomputed. -/
def CameraOptions.SetWidth (o : CameraOptions) (value : ℝ) : CameraOptions :=
  { o with width := value }

/-- `CameraOptions::SetHeight(value)` (Camera.cpp lines 957-960): assigns
only the `height` field; the cached ratio is not recomputed. -/
def CameraOptions.SetHeight (o : CameraOptions) (value : ℝ) : CameraOptions :=
  { o with height := value }

/-- `CameraOptions::SetNearClippingPlane(value)`. -/
def CameraOptions.SetNearClippingPlane (o : CameraOptions) (value : ℝ) :
    CameraOptions :=
  { o with nearPlane := value }

/-- `CameraOptions::SetFarClippingPlane(value)`. -/
def CameraOptions.SetFarClippingPlane (o : CameraOptions) (value : ℝ) :
    CameraOptions :=
  { o with farPlane := value }

/-- `CameraOptions::GetAspectRatio()` (Camera.cpp lines 898-901): returns
the cached field as-is. -/
def CameraOptions.GetAspect (o : CameraOptions) : ℝ :=
  o.aspect

/-- `CameraOptions::UpdateAspectRatio()` (Camera.cpp lines 997-1000):
recomputes the cached field as `width / height`. -/
def CameraOptions.UpdateAspect (o : CameraOptions) : CameraOptions :=
  { o with aspect := o.width / o.height }

/-- The `CameraOptions(fov, w, h, nearClip, farClip)` constructor
(Camera.cpp lines 813-821): the member-initializer list sets every field
(with the cached ratio seeded as `w / h`), then the body re-runs the five
setters (so `fieldOfView` ends at `fov * PI`). -/
def CameraOptions.ctor5 (fov w h nearClip farClip : ℝ) : CameraOptions :=
  let o : CameraOptions :=
    { fieldOfView := fov, width := w, height := h, aspect := w / h,
      nearPlane := nearClip, farPlane := farClip }
  ((((o.SetFieldOfView fov).SetWidth w).SetHeight h).SetNearClippingPlane
    nearClip).SetFarClippingPlane farClip

/-- The `CameraOptions()` default constructor: delegates to
`CameraOptions(0.25f, 1280, 720, 0.1f, 100.0f)`. -/
def CameraOptions.GetDefaultCameraOptions : CameraOptions :=
  CameraOptions.ctor5 0.25 1280 720 0.1 100

/-!
## Shared helper lemmas about the drain loop
-/

/-- Componentwise sum of the payloads of the RELATIVE-scoped position items
of a queue, in queue order. -/
def relPositionSum (q : List TransformItem) : Float3 :=
  q.foldr
    (fun it acc =>
      if it.ttype = T_POSITION ∧ it.scope = S_RELATIVE then
        Float3.add ⟨it.data.x, it.data.y, it.data.z⟩ acc
      else acc)
    ⟨0, 0, 0⟩

lemma Float3.add_zero3 (a : Float3) : a.add ⟨0, 0, 0⟩ = a := by
  ext <;> simp [Float3.add]

lemma Float3.add_assoc3 (a b c : Float3) :
    (a.add b).add c = a.add (b.add c) := by
  ext <;> simp [Float3.add] <;> ring

/-- The drain loop is a left fold of the per-item step over the queue, and
it always terminates with an empty queue. -/
lemma HandleTransformationsAux_eq_foldl :
    ∀ (q : List TransformItem) (t : TRANSFORM),
      GameEntity.HandleTransformationsAux t q =
        (q.foldl GameEntity.HandleTransformationsStep t, []) := by
  intro q
  induction q with
  | nil =>
      intro t
      rfl
  | cons it rest ih =>
      intro t
      simp [GameEntity.HandleTransformationsAux, ih]

/-- An item whose scope is `S_IGNORE` is skipped by the step (the loop pops
it without applying it). -/
lemma step_ignored (t : TRANSFORM) (item : TransformItem)
    (h : item.scope = S_IGNORE) :
    GameEntity.HandleTransformationsStep t item = t := by
  simp [GameEntity.HandleTransformationsStep, TransformBuffer.IsIgnored,
    TransformBuffer.IsOfTransformScope, TransformBuffer.IsMatchingTransformScope,
    TransformBuffer.get_scope, h]

/-- A RELATIVE position item adds its payload to the position fields. -/
lemma step_position_relative (t : TRANSFORM) (item : TransformItem)
    (hty : item.ttype = T_POSITION) (hsc : item.scope = S_RELATIVE) :
    (GameEntity.HandleTransformationsStep t item).GetPosition =
      t.GetPosition.add ⟨item.data.x, item.data.y, item.data.z⟩ := by
  simp [GameEntity.HandleTransformationsStep, TransformBuffer.IsIgnored,
    TransformBuffer.IsOfTransformScope, TransformBuffer.IsMatchingTransformScope,
    TransformBuffer.get_scope, TransformBuffer.get_type, TransformBuffer.get_data,
    TransformBuffer.ConvertTransformation3, hty, hsc, GameEntity.HandlePosition,
    TRANSFORM.GetPosition, TRANSFORM.SetPosition, Float3.add]

/-- A non-position item never changes the position fields. -/
lemma step_position_of_ne (t : TRANSFORM) (item : TransformItem)
    (hty : item.ttype ≠ T_POSITION) :
    (GameEntity.HandleTransformationsStep t item).GetPosition =
      t.GetPosition := by
  obtain ⟨ty, d, sc⟩ := item
  cases ty <;> cases sc <;>
    simp_all [GameEntity.HandleTransformationsStep, TransformBuffer.IsIgnored,
      TransformBuffer.IsOfTransformScope, TransformBuffer.IsMatchingTransformScope,
      TransformBuffer.get_scope, TransformBuffer.get_type,
      TransformBuffer.get_data, TransformBuffer.ConvertTransformation3,
      GameEntity.HandleScale, GameEntity.HandleRotation,
      TRANSFORM.GetPosition, TRANSFORM.SetScale, TRANSFORM.SetRotation]

/-- Folding the step over a queue whose position items are all RELATIVE
adds the componentwise sum of their payloads to the position. -/
lemma foldl_position_sum :
    ∀ (q : List TransformItem) (t : TRANSFORM),
      (∀ it ∈ q, it.ttype = T_POSITION → it.scope = S_RELATIVE) →
      (q.foldl GameEntity.HandleTransformationsStep t).GetPosition =
        t.GetPosition.add (relPositionSum q) := by
  intro q
  induction q with
  | nil =>
      intro t _
      simp [relPositionSum, Float3.add_zero3]
  | cons it rest ih =>
      intro t h
      have hrest : ∀ i ∈ rest, i.ttype = T_POSITION → i.scope = S_RELATIVE :=
        fun i hi => h i (List.mem_cons_of_mem _ hi)
      by_cases hty : it.ttype = T_POSITION
      · have hsc : it.scope = S_RELATIVE := h it (List.mem_cons_self _ _) hty
        rw [List.foldl_cons, ih _ hrest, step_position_relative t it hty hsc]
        rw [Float3.add_assoc3]
        simp [relPositionSum, hty, hsc]
      · rw [List.foldl_cons, ih _ hrest, step_position_of_ne t it hty]
        simp [relPositionSum, hty]

/-- A non-scale item never changes the scale fields. -/
lemma step_scale_of_ne (t : TRANSFORM) (item : TransformItem)
    (hty : item.ttype ≠ T_SCALE) :
    (GameEntity.HandleTransformationsStep t item).GetScale = t.GetScale := by
  obtain ⟨ty, d, sc⟩ := item
  cases ty <;> cases sc <;>
    simp_all [GameEntity.HandleTransformationsStep, TransformBuffer.IsIgnored,
      TransformBuffer.IsOfTransformScope, TransformBuffer.IsMatchingTransformScope,
      TransformBuffer.get_scope, TransformBuffer.get_type,
      TransformBuffer.get_data, TransformBuffer.ConvertTransformation3,
      GameEntity.HandlePosition, GameEntity.HandleRotation,
      TRANSFORM.GetScale, TRANSFORM.SetPosition, TRANSFORM.SetRotation]

/-- An ABSOLUTE scale item overwrites the scale fields with its payload. -/
lemma step_scale_absolute (t : TRANSFORM) (v : Float4) :
    (GameEntity.HandleTransformationsStep t ⟨T_SCALE, v, S_ABSOLUTE⟩).GetScale =
      ⟨v.x, v.y, v.z⟩ := by
  simp [GameEntity.HandleTransformationsStep, TransformBuffer.IsIgnored,
    TransformBuffer.IsOfTransformScope, TransformBuffer.IsMatchingTransformScope,
    TransformBuffer.get_scope, TransformBuffer.get_type,
    TransformBuffer.get_data, TransformBuffer.ConvertTransformation3,
    GameEntity.HandleScale, TRANSFORM.GetScale, TRANSFORM.SetScale]

/-- Folding the step over a queue with no scale items preserves the scale
fields. -/
lemma foldl_scale_of_no_scale :
    ∀ (q : List TransformItem) (t : TRANSFORM),
      (∀ it ∈ q, it.ttype ≠ T_SCALE) →
      (q.foldl GameEntity.HandleTransformationsStep t).GetScale =
        t.GetScale := by
  intro q
  induction q with
  | nil =>
      intro t _
      rfl
  | cons it rest ih =>
      intro t h
      rw [List.foldl_cons, ih _ fun i hi => h i (List.mem_cons_of_mem _ hi),
        step_scale_of_ne t it (h it (List.mem_cons_self _ _))]

/-!
## Claims
-/

/-- C1: for every entity whose TransformBuffer holds a sequence of
RELATIVE-scoped position items `d1..dn`, in any interleaving with items of
other transform types, draining the buffer via `HandleTransformations`
yields a final position equal to the initial position plus the
componentwise sum of `d1..dn`. -/
theorem claim_C1_relative_position_sum (e : GameEntity)
    (h : ∀ it ∈ e.transformBuffer.internalQueue,
      it.ttype = T_POSITION → it.scope = S_RELATIVE) :
    (e.HandleTransformations).localT.GetPosition =
      e.localT.GetPosition.add
        (relPositionSum e.transformBuffer.internalQueue) := by
  unfold GameEntity.HandleTransformations
  rw [HandleTransformationsAux_eq_foldl]
  exact foldl_position_sum _ _ h

/-- Concrete entity for the C1 witness: two RELATIVE position deltas
interleaved with an ABSOLUTE scale item and an IGNORE-scoped rotation
item. -/
def c1Entity : GameEntity :=
  { localT := { pX := 7, pY := 8, pZ := 9, sX := 1, sY := 1, sZ := 1,
                rX := 0, rY := 0, rZ := 0, rW := 1 },
    transformBuffer := ⟨[
      ⟨T_POSITION, ⟨1, 2, 3, 0⟩, S_RELATIVE⟩,
      ⟨T_SCALE, ⟨5, 5, 5, 0⟩, S_ABSOLUTE⟩,
      ⟨T_ROTATION, ⟨0, 0, 0, 1⟩, S_IGNORE⟩,
      ⟨T_POSITION, ⟨10, 0, 0, 0⟩, S_RELATIVE⟩]⟩ }

/-- Witness for C1 at a concrete entity. -/
theorem claim_C1_witness :
    (∀ it ∈ c1Entity.transformBuffer.internalQueue,
      it.ttype = T_POSITION → it.scope = S_RELATIVE) ∧
    (c1Entity.HandleTransformations).localT.GetPosition =
      c1Entity.localT.GetPosition.add
        (relPositionSum c1Entity.transformBuffer.internalQueue) :=
  ⟨by simp [c1Entity], claim_C1_relative_position_sum c1Entity (by simp [c1Entity])⟩

/-- C2: within one drain cycle an ABSOLUTE item sets its field's baseline
and a later RELATIVE item of the same type accumulates onto the value as
resolved at processing time.  First conjunct: a fresh entity (initial scale
`(1,1,1)`) that enqueues `ScaleTo(0.2, 0.2, 0.2)` then `Scale(0.1, 0, 0)`
drains to scale `(0.3, 0.2, 0.2)`.  Second conjunct: whenever an ABSOLUTE
scale item is drained and no scale item follows it, the final scale equals
that last ABSOLUTE payload, whatever was enqueued before it (in particular
any number of earlier RELATIVE scale pushes are discarded). -/
theorem claim_C2_absolute_baseline_relative_accumulates :
    (((GameEntity.ctorDefaults.ScaleTo 0.2 0.2 0.2).Scale 0.1 0
        0).HandleTransformations).localT.GetScale = ⟨0.3, 0.2, 0.2⟩ ∧
    ∀ (t : TRANSFORM) (l1 : List TransformItem) (v : Float4)
      (l2 : List TransformItem),
      (∀ it ∈ l2, it.ttype ≠ T_SCALE) →
      (GameEntity.HandleTransformationsAux t
          (l1 ++ ⟨T_SCALE, v, S_ABSOLUTE⟩ :: l2)).1.GetScale =
        ⟨v.x, v.y, v.z⟩ := by
  constructor
  · simp [GameEntity.ctorDefaults, GameEntity.ScaleTo, GameEntity.Scale,
      TransformBuffer.push_scale, TransformBuffer.push,
      TransformBuffer.ConvertTransformation4, GameEntity.HandleTransformations,
      GameEntity.HandleTransformationsAux, GameEntity.HandleTransformationsStep,
      TransformBuffer.IsIgnored, TransformBuffer.IsOfTransformScope,
      TransformBuffer.IsMatchingTransformScope, TransformBuffer.get_scope,
      TransformBuffer.get_type, TransformBuffer.get_data,
      TransformBuffer.ConvertTransformation3, GameEntity.HandleScale,
      TRANSFORM.GetScale, TRANSFORM.SetScale]
    norm_num
  · intro t l1 v l2 h
    rw [HandleTransformationsAux_eq_foldl]
    simp only [List.foldl_append, List.foldl_cons]
    rw [foldl_scale_of_no_scale _ _ h, step_scale_absolute]

/-- C3: `GameEntity::Update` drains the buffer exactly once, in strict
FIFO (insertion) order.  First conjunct: after `Update` the buffer is
empty.  Second conjunct: the final local transform is the left fold of the
per-item step over the queue contents in insertion order (the queue at the
time of the drain is the entity's buffer followed by the ABSOLUTE scale
item that `Update`'s procedural animation pushes before draining), i.e.
every item is dispatched exactly once, front to back.  Third conjunct: an
item whose scope is `S_IGNORE` is popped without being applied — the step
leaves the transform unchanged on it. -/
theorem claim_C3_update_drains_fifo (e : GameEntity)
    (deltaTime totalTime : ℝ) :
    (e.Update deltaTime totalTime).transformBuffer.internalQueue = [] ∧
    (e.Update deltaTime totalTime).localT =
      List.foldl GameEntity.HandleTransformationsStep e.localT
        (e.transformBuffer.internalQueue ++
          [⟨T_SCALE,
            ⟨0.15 + 0.05 * (-(Real.sin totalTime)),
             0.15 + 0.05 * (-(Real.sin totalTime)), 1, 0⟩, S_ABSOLUTE⟩]) ∧
    ∀ (t : TRANSFORM) (item : TransformItem), item.scope = S_IGNORE →
      GameEntity.HandleTransformationsStep t item = t := by
  refine ⟨?_, ?_, fun t item h => step_ignored t item h⟩
  · simp [GameEntity.Update, GameEntity.ScaleTo, TransformBuffer.push_scale,
      TransformBuffer.push, TransformBuffer.ConvertTransformation4,
      GameEntity.HandleTransformations, HandleTransformationsAux_eq_foldl]
  · simp [GameEntity.Update, GameEntity.ScaleTo, TransformBuffer.push_scale,
      TransformBuffer.push, TransformBuffer.ConvertTransformation4,
      GameEntity.HandleTransformations, HandleTransformationsAux_eq_foldl]

/-- Witness for C3 at a concrete entity, time values, and IGNORE item. -/
theorem claim_C3_witness :
    (GameEntity.ctorDefaults.Update 0 0).transformBuffer.internalQueue = [] ∧
    GameEntity.HandleTransformationsStep
        { pX := 0, pY := 0, pZ := 0, sX := 1, sY := 1, sZ := 1,
          rX := 0, rY := 0, rZ := 0, rW := 1 }
        ⟨T_POSITION, ⟨4, 4, 4, 0⟩, S_IGNORE⟩ =
      { pX := 0, pY := 0, pZ := 0, sX := 1, sY := 1, sZ := 1,
        rX := 0, rY := 0, rZ := 0, rW := 1 } :=
  ⟨(claim_C3_update_drains_fifo GameEntity.ctorDefaults 0 0).1,
   (claim_C3_update_drains_fifo GameEntity.ctorDefaults 0 0).2.2 _ _ rfl⟩

/-- C4 counterexample: the claim says `UpdatePosition(delta, false)`
overwrites the current position with `delta` for every delta vector, but
the guard `if (speed.x + speed.y + speed.z != 0.0f)` drops any delta whose
components sum to zero: from position `(5,5,5)`, the call with delta
`(1,-1,0)` and `isRelative = false` leaves the position at `(5,5,5)`,
which differs from the overwrite the claim requires. -/
theorem claim_C4_counterexample :
    ((TransformDescription.ctorPosRot ⟨5, 5, 5⟩ ⟨0, 0, 0⟩).UpdatePosition
        ⟨1, -1, 0⟩ false).position = ⟨5, 5, 5⟩ ∧
    ((⟨5, 5, 5⟩ : Float3) ≠ ⟨1, -1, 0⟩) := by
  constructor
  · norm_num [TransformDescription.UpdatePosition,
      TransformDescription.ctorPosRot, TransformDescription.CalculateUp,
      TransformDescription.CalculateHeading]
  · norm_num

/-- C4 as amended: `UpdatePosition`/`UpdateRotation` behave as the claim
says — RELATIVE adds the delta to the current position (resp. orientation)
and non-RELATIVE overwrites it — provided the delta's components do not
sum to zero; when they sum to zero the guard skips the update entirely and
the description is returned unchanged. -/
theorem claim_C4_amended_guarded_update (td : TransformDescription)
    (delta : Float3) :
    (delta.x + delta.y + delta.z ≠ 0 →
      (td.UpdatePosition delta true).position = td.position.add delta ∧
      (td.UpdatePosition delta false).position = delta ∧
      (td.UpdateRotation delta true).orientation = td.orientation.add delta ∧
      (td.UpdateRotation delta false).orientation = delta) ∧
    (delta.x + delta.y + delta.z = 0 →
      td.UpdatePosition delta true = td ∧
      td.UpdatePosition delta false = td ∧
      td.UpdateRotation delta true = td ∧
      td.UpdateRotation delta false = td) := by
  constructor
  · intro h
    refine ⟨?_, ?_, ?_, ?_⟩ <;>
      simp [TransformDescription.UpdatePosition,
        TransformDescription.UpdateRotation, TransformDescription.Translate,
        TransformDescription.SetPosition, TransformDescription.Rotate,
        TransformDescription.SetRotation, TransformDescription.CalculateUp,
        TransformDescription.CalculateHeading, h]
  · intro h
    refine ⟨?_, ?_, ?_, ?_⟩ <;>
      simp [TransformDescription.UpdatePosition,
        TransformDescription.UpdateRotation, h]

/-- Witness for C4's amended theorem at a concrete description and
delta. -/
theorem claim_C4_witness :
    ((TransformDescription.ctorPosRot ⟨0, 0, 0⟩ ⟨0, 0, 0⟩).UpdatePosition
        ⟨1, 2, 3⟩ false).position = ⟨1, 2, 3⟩ :=
  ((claim_C4_amended_guarded_update _ _).1 (by norm_num)).2.1

/-- Witness for C2's quantified conjunct at a concrete transform and
queue. -/
theorem claim_C2_witness :
    (GameEntity.HandleTransformationsAux
        { pX := 0, pY := 0, pZ := 0, sX := 1, sY := 1, sZ := 1,
          rX := 0, rY := 0, rZ := 0, rW := 1 }
        ([⟨T_SCALE, ⟨9, 9, 9, 0⟩, S_RELATIVE⟩] ++
          ⟨T_SCALE, ⟨2, 3, 4, 0⟩, S_ABSOLUTE⟩ ::
            [⟨T_POSITION, ⟨1, 1, 1, 0⟩, S_RELATIVE⟩])).1.GetScale =
      ⟨2, 3, 4⟩ :=
  claim_C2_absolute_baseline_relative_accumulates.2 _ _ _ _ (by simp)

/-- C5: the no-argument `TransformDescription::GetCurrentOrientation()`
returns the `position` field instead of the `orientation` field: on a
description constructed from position `p` and rotation `r` it returns `p`,
while the stored orientation is `r`, so whenever `p` differs from `r` the
accessor disagrees with the orientation field. -/
theorem claim_C5_getCurrentOrientation_returns_position (p r : Float3) :
    (TransformDescription.ctorPosRot p r).GetCurrentOrientation = p ∧
    (TransformDescription.ctorPosRot p r).orientation = r ∧
    (p ≠ r →
      (TransformDescription.ctorPosRot p r).GetCurrentOrientation ≠
        (TransformDescription.ctorPosRot p r).orientation) := by
  refine ⟨?_, ?_, ?_⟩
  · simp [TransformDescription.GetCurrentOrientation,
      TransformDescription.ctorPosRot, TransformDescription.CalculateUp,
      TransformDescription.CalculateHeading]
  · simp [TransformDescription.ctorPosRot, TransformDescription.CalculateUp,
      TransformDescription.CalculateHeading]
  · intro h
    simpa [TransformDescription.GetCurrentOrientation,
      TransformDescription.ctorPosRot, TransformDescription.CalculateUp,
      TransformDescription.CalculateHeading] using h

/-- Witness for C5 at a concrete position and rotation. -/
theorem claim_C5_witness :
    (TransformDescription.ctorPosRot ⟨1, 2, 3⟩ ⟨4, 5, 6⟩).GetCurrentOrientation ≠
      (TransformDescription.ctorPosRot ⟨1, 2, 3⟩ ⟨4, 5, 6⟩).orientation :=
  (claim_C5_getCurrentOrientation_returns_position _ _).2.2 (by norm_num)

/-- C6: after a default-constructed `CameraOptions` receives
`SetWidth(1920)` without a subsequent aspect-ratio refresh, the cached
ratio getter still reports the pre-change value `1280 / 720` (and not
`1920 / 720`); in general `SetWidth` and `SetHeight` leave the cached
ratio field unchanged, and only the explicit refresh recomputes it as
`width / height`. -/
theorem claim_C6_stale_aspect_cache :
    (CameraOptions.GetDefaultCameraOptions.SetWidth 1920).GetAspect =
      CameraOptions.GetDefaultCameraOptions.GetAspect ∧
    CameraOptions.GetDefaultCameraOptions.GetAspect = 1280 / 720 ∧
    (CameraOptions.GetDefaultCameraOptions.SetWidth 1920).GetAspect ≠
      1920 / 720 ∧
    ∀ (o : CameraOptions) (v : ℝ),
      (o.SetWidth v).aspect = o.aspect ∧
      (o.SetHeight v).aspect = o.aspect ∧
      o.UpdateAspect.aspect = o.width / o.height := by
  refine ⟨rfl, rfl, ?_, fun o v => ⟨rfl, rfl, rfl⟩⟩
  norm_num [CameraOptions.GetDefaultCameraOptions, CameraOptions.ctor5,
    CameraOptions.SetFieldOfView, CameraOptions.SetWidth,
    CameraOptions.SetHeight, CameraOptions.SetNearClippingPlane,
    CameraOptions.SetFarClippingPlane, CameraOptions.GetAspect]

/-- Witness for C6's quantified conjunct at concrete options and width. -/
theorem claim_C6_witness :
    (CameraOptions.GetDefaultCameraOptions.SetWidth 555).aspect =
      CameraOptions.GetDefaultCameraOptions.aspect :=
  (claim_C6_stale_aspect_cache.2.2.2 CameraOptions.GetDefaultCameraOptions 555).1

/-- C7: after `UnitVector::Set` (and the value constructor, which runs the
same store-then-`normalize` sequence), the stored 3-vector has unit
length, for every input other than the zero vector (the zero vector hits
the unguarded division by zero magnitude that the spec notes as the sole
exception). -/
theorem claim_C7_unitvector_normalized (u : UnitVector) (x y z : ℝ)
    (h : ¬(x = 0 ∧ y = 0 ∧ z = 0)) :
    (u.Set x y z).data.x ^ 2 + (u.Set x y z).data.y ^ 2 +
        (u.Set x y z).data.z ^ 2 = 1 ∧
    Real.sqrt ((u.Set x y z).data.x ^ 2 + (u.Set x y z).data.y ^ 2 +
        (u.Set x y z).data.z ^ 2) = 1 ∧
    UnitVector.ctorXYZ x y z = u.Set x y z := by
  have hne : x ≠ 0 ∨ y ≠ 0 ∨ z ≠ 0 := by tauto
  have hpos : 0 < x ^ 2 + y ^ 2 + z ^ 2 := by
    rcases hne with hx | hy | hz
    · have : 0 < x ^ 2 := by positivity
      nlinarith [sq_nonneg y, sq_nonneg z]
    · have : 0 < y ^ 2 := by positivity
      nlinarith [sq_nonneg x, sq_nonneg z]
    · have : 0 < z ^ 2 := by positivity
      nlinarith [sq_nonneg x, sq_nonneg y]
  have hmag : 0 < Real.sqrt (x ^ 2 + y ^ 2 + z ^ 2) := Real.sqrt_pos.mpr hpos
  have hmagsq : Real.sqrt (x ^ 2 + y ^ 2 + z ^ 2) ^ 2 = x ^ 2 + y ^ 2 + z ^ 2 :=
    Real.sq_sqrt hpos.le
  have hmain : (u.Set x y z).data.x ^ 2 + (u.Set x y z).data.y ^ 2 +
      (u.Set x y z).data.z ^ 2 = 1 := by
    simp only [UnitVector.Set, UnitVector.normalize]
    field_simp
  refine ⟨hmain, ?_, rfl⟩
  rw [hmain, Real.sqrt_one]

/-- Witness for C7 at a concrete vector. -/
theorem claim_C7_witness :
    ((UnitVector.mk ⟨7, 7, 7⟩).Set 1 0 0).data.x ^ 2 +
        ((UnitVector.mk ⟨7, 7, 7⟩).Set 1 0 0).data.y ^ 2 +
        ((UnitVector.mk ⟨7, 7, 7⟩).Set 1 0 0).data.z ^ 2 = 1 :=
  (claim_C7_unitvector_normalized _ 1 0 0 (by norm_num)).1

/-- C9: the 10-argument `constexpr TRANSFORM` constructor initializes the
scale fields from the position arguments `_posX, _posY, _posZ` rather than
from `_scaleX, _scaleY, _scaleZ`, so whenever the position arguments
differ from the scale arguments the constructed transform's scale is not
the scale that was passed in. -/
theorem claim_C9_constexpr_ctor_scale_from_position
    (a b c d e f g h i j : ℝ) :
    (TRANSFORM.constexprInit a b c d e f g h i j).GetScale = ⟨a, b, c⟩ ∧
    ((⟨a, b, c⟩ : Float3) ≠ ⟨d, e, f⟩ →
      (TRANSFORM.constexprInit a b c d e f g h i j).GetScale ≠ ⟨d, e, f⟩) := by
  refine ⟨rfl, fun hne => ?_⟩
  simpa [TRANSFORM.constexprInit, TRANSFORM.GetScale] using hne

/-- Witness for C9 at concrete constructor arguments. -/
theorem claim_C9_witness :
    (TRANSFORM.constexprInit 1 2 3 4 5 6 0 0 0 1).GetScale ≠ ⟨4, 5, 6⟩ :=
  (claim_C9_constexpr_ctor_scale_from_position 1 2 3 4 5 6 0 0 0 1).2
    (by norm_num)

/-- C10: on a non-empty buffer, `change_item_type` and `change_item_scope`
assign the new tag to a local copy of the front element and never write it
back, so the whole buffer — including the front element's type and scope —
is unchanged by either call. -/
theorem claim_C10_change_item_noop (b : TransformBuffer)
    (ty : TransformType) (sc : TransformScope)
    (h : b.internalQueue ≠ []) :
    b.change_item_type ty = b ∧ b.change_item_scope sc = b := by
  obtain ⟨q⟩ := b
  cases q with
  | nil => exact absurd rfl h
  | cons front rest => exact ⟨rfl, rfl⟩

lemma XMQuaternionLengthSq_nonneg (q : Float4) :
    0 ≤ XMQuaternionLengthSq q := by
  simp only [XMQuaternionLengthSq]
  nlinarith [mul_self_nonneg q.x, mul_self_nonneg q.y, mul_self_nonneg q.z,
    mul_self_nonneg q.w]

/-- The quaternion norm is multiplicative (the four-square identity,
specialized to the library's component formulas). -/
lemma XMQuaternionLengthSq_multiply (Q1 Q2 : Float4) :
    XMQuaternionLengthSq (XMQuaternionMultiply Q1 Q2) =
      XMQuaternionLengthSq Q1 * XMQuaternionLengthSq Q2 := by
  simp only [XMQuaternionLengthSq, XMQuaternionMultiply]
  ring

lemma XMQuaternionLengthSq_eq_zero (q : Float4) :
    XMQuaternionLengthSq q = 0 ↔ q = ⟨0, 0, 0, 0⟩ := by
  obtain ⟨a, b, c, d⟩ := q
  simp only [XMQuaternionLengthSq, Float4.mk.injEq]
  constructor
  · intro h
    refine ⟨?_, ?_, ?_, ?_⟩ <;>
      nlinarith [mul_self_nonneg a, mul_self_nonneg b, mul_self_nonneg c,
        mul_self_nonneg d]
  · rintro ⟨rfl, rfl, rfl, rfl⟩
    ring

/-- Normalizing a nonzero quaternion yields squared length exactly 1. -/
lemma XMQuaternionNormalize_lengthSq (q : Float4) (h : q ≠ ⟨0, 0, 0, 0⟩) :
    XMQuaternionLengthSq (XMQuaternionNormalize q) = 1 := by
  have h0 : XMQuaternionLengthSq q ≠ 0 :=
    fun hh => h ((XMQuaternionLengthSq_eq_zero q).1 hh)
  have hpos : 0 < XMQuaternionLengthSq q :=
    lt_of_le_of_ne (XMQuaternionLengthSq_nonneg q) (Ne.symm h0)
  have hs : 0 < Real.sqrt (XMQuaternionLengthSq q) := Real.sqrt_pos.mpr hpos
  have hss : Real.sqrt (XMQuaternionLengthSq q) *
      Real.sqrt (XMQuaternionLengthSq q) = XMQuaternionLengthSq q :=
    Real.mul_self_sqrt (XMQuaternionLengthSq_nonneg q)
  have hif : (if Real.sqrt (XMQuaternionLengthSq q) > 0 then
        1 / Real.sqrt (XMQuaternionLengthSq q)
      else Real.sqrt (XMQuaternionLengthSq q)) =
      1 / Real.sqrt (XMQuaternionLengthSq q) := if_pos hs
  simp only [XMQuaternionNormalize, hif]
  simp only [XMQuaternionLengthSq] at *
  field_simp

/-- C8 counterexample: the claim quantifies over every RELATIVE-scoped
rotation item, but the zero payload `(0,0,0,0)` is enqueueable (no push
validates data) and drives the product to the zero quaternion, which
`XMQuaternionNormalize` maps to the zero quaternion again: starting from
the unit rotation `(0,0,0,1)`, the resulting norm is `0`, not within
`1e-5` of `1`. -/
theorem claim_C8_counterexample :
    XMQuaternionLengthSq
        ({ pX := 0, pY := 0, pZ := 0, sX := 1, sY := 1, sZ := 1,
           rX := 0, rY := 0, rZ := 0, rW := 1 } : TRANSFORM).GetRotation = 1 ∧
    ¬(|Real.sqrt (XMQuaternionLengthSq
          (GameEntity.HandleRotation
            { pX := 0, pY := 0, pZ := 0, sX := 1, sY := 1, sZ := 1,
              rX := 0, rY := 0, rZ := 0, rW := 1 }
            ⟨0, 0, 0, 0⟩ S_RELATIVE).GetRotation) - 1| ≤ 1e-5) := by
  constructor
  · norm_num [XMQuaternionLengthSq, TRANSFORM.GetRotation]
  · have hq : (GameEntity.HandleRotation
        { pX := 0, pY := 0, pZ := 0, sX := 1, sY := 1, sZ := 1,
          rX := 0, rY := 0, rZ := 0, rW := 1 }
        ⟨0, 0, 0, 0⟩ S_RELATIVE).GetRotation = ⟨0, 0, 0, 0⟩ := by
      simp [GameEntity.HandleRotation, TransformBuffer.IsMatchingTransformScope,
        TRANSFORM.GetRotation, TRANSFORM.SetRotation, XMQuaternionMultiply,
        XMQuaternionNormalize, XMQuaternionLengthSq]
    rw [hq]
    norm_num [XMQuaternionLengthSq, Real.sqrt_zero]

/-- C8 as amended: for every current rotation quaternion of unit norm and
every RELATIVE-scoped rotation item whose payload is not the zero
quaternion, `HandleRotation`'s multiply-then-renormalize step produces a
quaternion of norm exactly 1 in exact arithmetic — in particular within
the claimed `1e-5` tolerance of 1.  (The amendment excludes only the zero
payload exhibited by the counterexample.) -/
theorem claim_C8_amended_nonzero_norm_preserved (t : TRANSFORM) (d : Float4)
    (hunit : XMQuaternionLengthSq t.GetRotation = 1)
    (hnz : d ≠ ⟨0, 0, 0, 0⟩) :
    XMQuaternionLengthSq
        (GameEntity.HandleRotation t d S_RELATIVE).GetRotation = 1 ∧
    |Real.sqrt (XMQuaternionLengthSq
        (GameEntity.HandleRotation t d S_RELATIVE).GetRotation) - 1| ≤
      1e-5 := by
  have hres : (GameEntity.HandleRotation t d S_RELATIVE).GetRotation =
      XMQuaternionNormalize (XMQuaternionMultiply t.GetRotation d) := by
    simp [GameEntity.HandleRotation, TransformBuffer.IsMatchingTransformScope,
      TRANSFORM.GetRotation, TRANSFORM.SetRotation]
  have hprodnz : XMQuaternionMultiply t.GetRotation d ≠ ⟨0, 0, 0, 0⟩ := by
    intro hzero
    apply hnz
    have hL : XMQuaternionLengthSq (XMQuaternionMultiply t.GetRotation d) = 0 := by
      rw [hzero]
      simp [XMQuaternionLengthSq]
    rw [XMQuaternionLengthSq_multiply, hunit, one_mul] at hL
    exact (XMQuaternionLengthSq_eq_zero d).1 hL
  have h1 : XMQuaternionLengthSq
      (GameEntity.HandleRotation t d S_RELATIVE).GetRotation = 1 := by
    rw [hres]
    exact XMQuaternionNormalize_lengthSq _ hprodnz
  refine ⟨h1, ?_⟩
  rw [h1, Real.sqrt_one]
  norm_num

/-- Witness for C8's amended theorem at the identity rotation and a
concrete nonzero payload. -/
theorem claim_C8_witness :
    XMQuaternionLengthSq
        (GameEntity.HandleRotation
          { pX := 0, pY := 0, pZ := 0, sX := 1, sY := 1, sZ := 1,
            rX := 0, rY := 0, rZ := 0, rW := 1 }
          ⟨0, 0, 1, 0⟩ S_RELATIVE).GetRotation = 1 :=
  (claim_C8_amended_nonzero_norm_preserved _ _
    (by norm_num [XMQuaternionLengthSq, TRANSFORM.GetRotation])
    (by norm_num)).1

/-- Witness for C10 at a concrete one-element buffer. -/
theorem claim_C10_witness :
    (TransformBuffer.mk [⟨T_POSITION, ⟨1, 2, 3, 0⟩, S_RELATIVE⟩]).change_item_type
        T_SCALE =
      TransformBuffer.mk [⟨T_POSITION, ⟨1, 2, 3, 0⟩, S_RELATIVE⟩] :=
  (claim_C10_change_item_noop _ T_SCALE S_IGNORE (by simp)).1

end GGP
